import Mathlib

/-!
Verification of the PDF OCR batch scripts (`check_ocr.py` and `ocr.py`).

The shallow embedding models page text as `List Char` (the result of the
PDF library's per-page text extraction), the outcome of opening a PDF as a
`ReadResult`, and the outcome of an external `ocrmypdf` subprocess as a
`SubprocessOutcome`.  Functions return the commands they would spawn and
the messages they would print, so that absence of an external invocation
is the absence of a command in the returned trace.
-/

namespace CyprusFile

/-- `THRESHOLD = 52` from `check_ocr.py`: character count threshold used to
decide whether a page needs OCR. -/
def THRESHOLD : Nat := 52

/-- The whitespace characters stripped by the default `str.strip()`
(ASCII subset: space, tab, newline, carriage return, vertical tab, form feed). -/
def isPySpace (c : Char) : Bool :=
  c == ' ' || c == '\t' || c == '\n' || c == '\r' || c == '\x0b' || c == '\x0c'

/-- `text.strip()`: remove leading and trailing whitespace. -/
def strip (s : List Char) : List Char :=
  ((s.dropWhile isPySpace).reverse.dropWhile isPySpace).reverse

/-- Outcome of `pypdf.PdfReader(file_path)`: the list of per-page extracted
texts on success, or one of the two caught failure modes. -/
inductive ReadResult where
  | ok (pages : List (List Char))
  | fileNotFound
  | readError (msg : String)

/-- What `analyze_pdf_pages` produces: the printed messages and the returned
list of 1-based page numbers. -/
structure AnalyzeOutput where
  logs : List String
  result : List Nat

/-- The page-scanning loop of `analyze_pdf_pages`: for `i in range(num_pages)`,
strip the extracted text of page `i` and append `i + 1` when its length is at
most `THRESHOLD`. -/
def analyzePages (pages : List (List Char)) : List Nat :=
  (List.range pages.length).foldl
    (fun acc i =>
      if (strip (pages.getD i [])).length ≤ THRESHOLD then acc ++ [i + 1] else acc)
    []

/-- `analyze_pdf_pages` from `check_ocr.py`: on a read failure it prints an
error and returns `[]`; on success it scans every page once in document order. -/
def analyze_pdf_pages (file_path : String) (r : ReadResult) : AnalyzeOutput :=
  match r with
  | .fileNotFound =>
      { logs := ["Error: The file was not found: " ++ file_path]
        result := [] }
  | .readError e =>
      { logs := ["An error occurred while reading the PDF: " ++ e]
        result := [] }
  | .ok pages =>
      { logs := ["Analyzing " ++ file_path ++ " (" ++ toString pages.length ++ " pages)..."]
          ++ (List.range pages.length).map
              (fun i => "Page " ++ toString (i + 1) ++ ": "
                ++ toString (strip (pages.getD i [])).length)
        result := analyzePages pages }

/-- Written from the spec words, for comparison with the code: the list of
1-based page numbers whose extracted, whitespace-stripped text length is at
most the threshold (52). -/
def specNeedsOcr (pages : List (List Char)) : List Nat :=
  ((List.range pages.length).filter
    (fun i => (strip (pages.getD i [])).length ≤ THRESHOLD)).map (fun i => i + 1)

/-! ### Characterisation of the scanning loop -/

theorem foldl_ite_append (p : Nat → Prop) [DecidablePred p] :
    ∀ (l acc : List Nat),
      l.foldl (fun a i => if p i then a ++ [i + 1] else a) acc
        = acc ++ (l.filter (fun i => decide (p i))).map (fun i => i + 1) := by
  intro l
  induction l with
  | nil => intro acc; simp
  | cons x xs ih =>
      intro acc
      by_cases h : p x <;> simp [h, ih, List.filter_cons]

theorem analyzePages_eq (pages : List (List Char)) :
    analyzePages pages = specNeedsOcr pages := by
  unfold analyzePages specNeedsOcr
  simpa using foldl_ite_append
    (fun i => (strip (pages.getD i [])).length ≤ THRESHOLD) (List.range pages.length) []

theorem mem_analyzePages (pages : List (List Char)) (m : Nat) :
    m ∈ analyzePages pages ↔
      ∃ i, i < pages.length ∧ (strip (pages.getD i [])).length ≤ THRESHOLD ∧ m = i + 1 := by
  rw [analyzePages_eq]
  unfold specNeedsOcr
  simp only [List.mem_map, List.mem_filter, List.mem_range, decide_eq_true_eq]
  constructor
  · rintro ⟨i, ⟨hi, hc⟩, rfl⟩
    exact ⟨i, hi, hc, rfl⟩
  · rintro ⟨i, hi, hc, rfl⟩
    exact ⟨i, ⟨hi, hc⟩, rfl⟩

theorem result_ok (file_path : String) (pages : List (List Char)) :
    (analyze_pdf_pages file_path (.ok pages)).result = analyzePages pages := rfl

end CyprusFile

namespace CyprusFile

/-! ### Paths and external commands -/

/-- `os.path.basename` for forward-slash paths: the part after the last `/`. -/
def basename (p : String) : String := (p.splitOn "/").getLastD p

/-- `os.path.join` for the simple two-argument uses in these scripts. -/
def joinPath (a b : String) : String := a ++ "/" ++ b

/-- The root part of `os.path.splitext`: everything before the last dot
(returns the input unchanged when it has no dot). -/
def splitextRoot (p : String) : String :=
  match p.splitOn "." with
  | [] => p
  | [_] => p
  | parts => String.intercalate "." parts.dropLast

/-- Outcome of a `subprocess.run(command, check=True)` call: normal exit,
`CalledProcessError` on a non-zero exit code, or `FileNotFoundError` when the
executable is missing. -/
inductive SubprocessOutcome where
  | success
  | calledProcessError (returncode : Int) (stderr : String)
  | notFound
deriving DecidableEq

/-- What an invoker produces: the external commands it spawned and the
messages it printed.  Totality of the invoker models that every subprocess
failure is caught and no exception propagates. -/
structure InvokeOutput where
  spawned : List (List String)
  logs : List String

/-- The `ocrmypdf` command list built by `run_ocr_for_file` in `check_ocr.py`. -/
def run_ocr_for_file_command (input_file output_folder : String)
    (pages_to_ocr : List Nat) : List String :=
  let filename := basename input_file
  let output_file := joinPath output_folder filename
  let pages_arg := String.intercalate "," (pages_to_ocr.map toString)
  ["ocrmypdf", "-l", "ell+eng+tur", "--redo-ocr", "--pages", pages_arg,
    input_file, output_file]

/-- `run_ocr_for_file` from `check_ocr.py`: skip (spawning nothing) when the
page list is empty, otherwise run the command once and report its outcome;
both failure modes are caught and printed. -/
def run_ocr_for_file (input_file output_folder : String) (pages_to_ocr : List Nat)
    (outcome : SubprocessOutcome) : InvokeOutput :=
  if pages_to_ocr = [] then
    { spawned := []
      logs := ["No pages to OCR for " ++ input_file ++ ". Skipping OCR step."] }
  else
    let filename := basename input_file
    let command := run_ocr_for_file_command input_file output_folder pages_to_ocr
    match outcome with
    | .success =>
        { spawned := [command]
          logs := ["OCR completed successfully for " ++ filename ++ "."] }
    | .calledProcessError rc _ =>
        { spawned := [command]
          logs := ["ocrmypdf failed for " ++ filename ++ " with error: exit code "
            ++ toString rc] }
    | .notFound =>
        { spawned := [command]
          logs := ["ocrmypdf command not found. Please ensure it is installed and in your PATH."] }

/-- The `ocrmypdf` command list built by `run_ocr_on_file` in `ocr.py`. -/
def run_ocr_on_file_command (input_file source_dir output_dir languages suff : String) :
    List String :=
  let filename_without_ext := splitextRoot input_file
  let output_file := filename_without_ext ++ suff ++ ".pdf"
  let input_path := joinPath source_dir input_file
  let output_path := joinPath output_dir output_file
  ["ocrmypdf", "-l", languages, "--force-ocr", input_path, output_path]

/-- `run_ocr_on_file` from `ocr.py`: returns `none` on success and
`some message` on either caught failure; it never raises. -/
def run_ocr_on_file (input_file source_dir output_dir languages suff : String)
    (pid : Nat) (outcome : SubprocessOutcome) : Option String :=
  match outcome with
  | .success => none
  | .notFound =>
      some ("[Process " ++ toString pid
        ++ "] FATAL ERROR: The ocrmypdf command was not found.")
  | .calledProcessError rc err =>
      some ("[Process " ++ toString pid ++ "] FAILED to process " ++ input_file
        ++ ". ocrmypdf returned an error (exit code " ++ toString rc ++ "). " ++ err)

/-! ### Batch drivers -/

/-- Per-file record of what `process_folder` did. -/
structure FileReport where
  file : String
  spawned : List (List String)
  logs : List String

/-- What a batch driver produces; `exitCode` is the process exit status,
which is 0 because no error path raises. -/
structure BatchOutput where
  logs : List String
  reports : List FileReport
  exitCode : Nat

/-- Python `str.endswith`, on the character lists of the strings. -/
def endswith (s post : String) : Bool := post.data.isSuffixOf s.data

/-- `process_folder` from `check_ocr.py`: bail out (still exiting 0, the early
`return` after printing) when the source folder is missing, filter the listing
to `.pdf` files, and for each file run the analyzer then the invoker.  `read`
gives the outcome of opening each file and `outcome` the outcome of its
subprocess invocation. -/
def process_folder (source_is_dir : Bool) (listing : List String)
    (read : String → ReadResult) (outcome : String → SubprocessOutcome)
    (source_folder output_folder : String) : BatchOutput :=
  if source_is_dir then
    let file_list := listing.filter (fun f => endswith f ".pdf")
    if file_list = [] then
      { logs := ["No PDF files found in " ++ source_folder ++ "."]
        reports := []
        exitCode := 0 }
    else
      { logs := ["Found " ++ toString file_list.length ++ " PDF files to process."]
        reports := file_list.map (fun filename =>
          let file_path := joinPath source_folder filename
          let a := analyze_pdf_pages file_path (read file_path)
          let r := run_ocr_for_file file_path output_folder a.result (outcome file_path)
          { file := filename, spawned := r.spawned, logs := a.logs ++ r.logs })
        exitCode := 0 }
  else
    { logs := ["Error: Source folder does not exist: " ++ source_folder]
      reports := []
      exitCode := 0 }

/-- Configuration constants of `ocr.py`. -/
def SOURCE_DIRECTORY : String := "archive"

/-- Output directory constant of `ocr.py`. -/
def OUTPUT_DIRECTORY : String := "ocr"

/-- Language codes constant of `ocr.py`. -/
def LANGUAGES : String := "eng+ell+tur"

/-- Output-file suffix constant of `ocr.py`. -/
def OUTPUT_SUFFIX : String := "_ocr"

/-- Python `str.lower()`, on the character list of the string. -/
def lower (s : String) : String := ⟨s.data.map Char.toLower⟩

/-- The work-list filter in `main` of `ocr.py`: keep files whose lowercased
name ends with `.pdf` but not with the already-processed suffix `_ocr.pdf`. -/
def files_to_process (all_files : List String) : List String :=
  all_files.filter (fun f =>
    endswith (lower f) ".pdf" && !endswith (lower f) (OUTPUT_SUFFIX ++ ".pdf"))

/-- What `main` of `ocr.py` does, as a trace: `workersConstructed` counts the
partially-applied worker closures built (one per listed file, inside the print
loop) and `workerInvocations` the files on which `run_ocr_on_file` is actually
called; `spawned` collects external commands.  The source builds the closure
and discards it, so nothing is ever invoked or spawned. -/
structure MainOutput where
  logs : List String
  workersConstructed : Nat
  workerInvocations : List String
  spawned : List (List String)

/-- `main` from `ocr.py`.  `listing` is `none` when `os.listdir` raises
`FileNotFoundError` (caught), otherwise the directory contents. -/
def ocrMain (listing : Option (List String)) : MainOutput :=
  match listing with
  | none =>
      { logs := ["Error: The directory " ++ SOURCE_DIRECTORY ++ " was not found."]
        workersConstructed := 0
        workerInvocations := []
        spawned := [] }
  | some all_files =>
      let fs := files_to_process all_files
      if fs = [] then
        { logs := ["No new PDF files to process found."]
          workersConstructed := 0
          workerInvocations := []
          spawned := [] }
      else
        { logs := ["Found " ++ toString fs.length ++ " PDF file(s) to process:"]
            ++ fs.map (fun f => "  - " ++ f)
          workersConstructed := fs.length
          workerInvocations := []
          spawned := [] }

/-! ### Helper lemmas -/

theorem process_folder_exitCode (source_is_dir : Bool) (listing : List String)
    (read : String → ReadResult) (outcome : String → SubprocessOutcome)
    (source_folder output_folder : String) :
    (process_folder source_is_dir listing read outcome source_folder output_folder).exitCode
      = 0 := by
  cases source_is_dir with
  | false => rfl
  | true =>
      by_cases h : listing.filter (fun f => endswith f ".pdf") = [] <;>
        simp [process_folder, h]

theorem process_folder_reports_length (listing : List String)
    (read : String → ReadResult) (outcome : String → SubprocessOutcome)
    (source_folder output_folder : String) :
    (process_folder true listing read outcome source_folder output_folder).reports.length
      = (listing.filter (fun f => endswith f ".pdf")).length := by
  by_cases h : listing.filter (fun f => endswith f ".pdf") = [] <;>
    simp [process_folder, h]

theorem data_append_eq (a b : String) : (a ++ b).data = a.data ++ b.data := rfl

theorem mem_slash_joinPath (a b : String) : '/' ∈ (joinPath a b).data := by
  unfold joinPath
  rw [data_append_eq, data_append_eq]
  rw [show ("/" : String).data = ['/'] from rfl]
  simp

theorem joinPath_ne_pages (a b : String) : joinPath a b ≠ "--pages" := by
  intro he
  have h1 : '/' ∈ ("--pages" : String).data := he ▸ mem_slash_joinPath a b
  exact absurd h1 (by decide)

/-! ### The claims -/

/-- Claim C1: for every readable PDF, `analyze_pdf_pages` returns exactly the
list of 1-based page numbers whose extracted, whitespace-stripped text length
is at most the fixed threshold 52; in particular every page whose extracted
(stripped) text length is ≤ 52, including length 0, is included. -/
theorem C1_needs_ocr_exactly_short_pages (file_path : String) (pages : List (List Char)) :
    (analyze_pdf_pages file_path (.ok pages)).result = specNeedsOcr pages ∧
    ∀ i, i < pages.length → (strip (pages.getD i [])).length ≤ THRESHOLD →
      i + 1 ∈ (analyze_pdf_pages file_path (.ok pages)).result := by
  refine ⟨analyzePages_eq pages, ?_⟩
  intro i hi hc
  rw [result_ok]
  exact (mem_analyzePages pages (i + 1)).2 ⟨i, hi, hc, rfl⟩

/-- Witness for C1 at a concrete two-page document whose first page is empty. -/
theorem C1_needs_ocr_exactly_short_pages_witness :
    (analyze_pdf_pages "doc.pdf" (.ok [[], ['x']])).result = specNeedsOcr [[], ['x']] ∧
    0 + 1 ∈ (analyze_pdf_pages "doc.pdf" (.ok [[], ['x']])).result := by
  have h := C1_needs_ocr_exactly_short_pages "doc.pdf" [[], ['x']]
  exact ⟨h.1, h.2 0 (by decide) (by decide)⟩

/-- Counterexample to C2 as stated over the RAW extracted text: a page of 53
space characters has raw length 53 > 52, yet the code strips the text before
measuring, so the page is included in the needs-OCR list. -/
theorem C2_counterexample :
    THRESHOLD < (List.replicate 53 ' ').length ∧
    1 ∈ (analyze_pdf_pages "doc.pdf" (.ok [List.replicate 53 ' '])).result := by
  decide

/-- Claim C2 amended: if the page's extracted text, after whitespace
stripping, has length strictly greater than 52, then the page's number is
never included in the needs-OCR list. -/
theorem C2_amended_long_pages_excluded (file_path : String) (pages : List (List Char))
    (i : Nat) (hi : i < pages.length)
    (h : THRESHOLD < (strip (pages.getD i [])).length) :
    i + 1 ∉ (analyze_pdf_pages file_path (.ok pages)).result := by
  rw [result_ok]
  intro hmem
  rcases (mem_analyzePages pages (i + 1)).1 hmem with ⟨j, hj, hc, he⟩
  have hji : j = i := by omega
  subst hji
  omega

/-- Witness for the amended C2 at a one-page document of 53 letters. -/
theorem C2_amended_long_pages_excluded_witness :
    0 + 1 ∉ (analyze_pdf_pages "doc.pdf" (.ok [List.replicate 53 'a'])).result :=
  C2_amended_long_pages_excluded "doc.pdf" [List.replicate 53 'a'] 0 (by decide) (by decide)

/-- Claim C5: a 3-page document with extracted character counts
`[10, 100, 40]` yields exactly the needs-OCR list `[1, 3]`. -/
theorem C5_three_page_example :
    (analyze_pdf_pages "doc.pdf"
      (.ok [List.replicate 10 'a', List.replicate 100 'a', List.replicate 40 'a'])).result
      = [1, 3] := by
  decide

/-- Claim C10: the needs-OCR list is strictly increasing (hence
duplicate-free) and every element is a 1-based page number of the document. -/
theorem C10_result_sorted_and_in_range (file_path : String) (pages : List (List Char)) :
    List.Pairwise (fun a b => a < b) (analyze_pdf_pages file_path (.ok pages)).result ∧
    ∀ m, m ∈ (analyze_pdf_pages file_path (.ok pages)).result →
      1 ≤ m ∧ m ≤ pages.length := by
  rw [result_ok]
  constructor
  · rw [analyzePages_eq]
    unfold specNeedsOcr
    have hp : List.Pairwise (fun a b : Nat => a < b)
        ((List.range pages.length).filter
          (fun i => decide ((strip (pages.getD i [])).length ≤ THRESHOLD))) :=
      (List.pairwise_lt_range _).filter _
    exact hp.map (fun i => i + 1) (fun a b hab => by simpa using hab)
  · intro m hm
    rcases (mem_analyzePages pages m).1 hm with ⟨i, hi, _, rfl⟩
    omega

/-- Witness for C10 at a concrete one-page document. -/
theorem C10_result_sorted_and_in_range_witness :
    List.Pairwise (fun a b => a < b) (analyze_pdf_pages "doc.pdf" (.ok [[]])).result ∧
    (1 ≤ 1 ∧ 1 ≤ ([[]] : List (List Char)).length) := by
  have h := C10_result_sorted_and_in_range "doc.pdf" [[]]
  exact ⟨h.1, h.2 1 (by decide)⟩

/-- Claim C3: an empty needs-OCR list means no external OCR invocation is
performed for the file, and conversely any file for which a command was
spawned had a non-empty needs-OCR list. -/
theorem C3_empty_list_no_invocation (file_path output_folder : String) (r : ReadResult)
    (o : SubprocessOutcome)
    (h : (analyze_pdf_pages file_path r).result = []) :
    (run_ocr_for_file file_path output_folder
        (analyze_pdf_pages file_path r).result o).spawned = [] ∧
    ∀ ps : List Nat,
      (run_ocr_for_file file_path output_folder ps o).spawned ≠ [] → ps ≠ [] := by
  constructor
  · rw [h]; rfl
  · intro ps hs hps
    subst hps
    exact hs rfl

/-- Witness for C3 on a file whose analysis fails (hence an empty list). -/
theorem C3_empty_list_no_invocation_witness :
    (run_ocr_for_file "a.pdf" "ocr"
        (analyze_pdf_pages "a.pdf" ReadResult.fileNotFound).result
        SubprocessOutcome.success).spawned = [] ∧
    ([3] : List Nat) ≠ [] := by
  have h := C3_empty_list_no_invocation "a.pdf" "ocr" ReadResult.fileNotFound
    SubprocessOutcome.success rfl
  exact ⟨h.1, h.2 [3] (by decide)⟩

/-- Claim C4: a missing or unreadable input yields an empty needs-OCR list
and a logged error message; `analyze_pdf_pages` is total (no exception), and
a batch over files that all fail to read still processes every `.pdf` file
instead of aborting. -/
theorem C4_read_errors_degrade_gracefully (file_path msg : String)
    (listing : List String) (outcome : String → SubprocessOutcome)
    (source_folder output_folder : String) :
    (analyze_pdf_pages file_path .fileNotFound).result = [] ∧
    (analyze_pdf_pages file_path .fileNotFound).logs ≠ [] ∧
    (analyze_pdf_pages file_path (.readError msg)).result = [] ∧
    (analyze_pdf_pages file_path (.readError msg)).logs ≠ [] ∧
    (process_folder true listing (fun _ => .fileNotFound) outcome
        source_folder output_folder).reports.length
      = (listing.filter (fun f => endswith f ".pdf")).length :=
  ⟨rfl, by simp [analyze_pdf_pages], rfl, by simp [analyze_pdf_pages],
    process_folder_reports_length listing (fun _ => .fileNotFound) outcome
      source_folder output_folder⟩

/-- Claim C6: a failing subprocess (non-zero exit or missing executable) is
caught: `run_ocr_for_file` attempts the command at most once and prints a
report, `run_ocr_on_file` returns the failure as text, and the batch driver
still reports on every `.pdf` file and exits with code 0. -/
theorem C6_subprocess_failures_caught (input_file output_folder source_dir output_dir
      languages suff source_folder : String) (ps : List Nat) (pid : Nat)
    (o : SubprocessOutcome) (h : o ≠ SubprocessOutcome.success)
    (listing : List String) (read : String → ReadResult)
    (outcome : String → SubprocessOutcome) :
    (run_ocr_for_file input_file output_folder ps o).spawned.length ≤ 1 ∧
    (run_ocr_for_file input_file output_folder ps o).logs ≠ [] ∧
    (run_ocr_on_file input_file source_dir output_dir languages suff pid o).isSome = true ∧
    (process_folder true listing read outcome source_folder output_folder).exitCode = 0 ∧
    (process_folder true listing read outcome source_folder output_folder).reports.length
      = (listing.filter (fun f => endswith f ".pdf")).length := by
  refine ⟨?_, ?_, ?_, process_folder_exitCode true listing read outcome
      source_folder output_folder,
    process_folder_reports_length listing read outcome source_folder output_folder⟩
  · unfold run_ocr_for_file
    by_cases hps : ps = []
    · simp [hps]
    · cases o <;> simp [hps]
  · unfold run_ocr_for_file
    by_cases hps : ps = []
    · simp [hps]
    · cases o <;> simp [hps]
  · cases o with
    | success => exact absurd rfl h
    | calledProcessError rc err => rfl
    | notFound => rfl

/-- Witness for C6 with a missing-executable failure on a one-file batch. -/
theorem C6_subprocess_failures_caught_witness :
    (run_ocr_for_file "a.pdf" "ocr" [1] SubprocessOutcome.notFound).spawned.length ≤ 1 ∧
    (run_ocr_for_file "a.pdf" "ocr" [1] SubprocessOutcome.notFound).logs ≠ [] ∧
    (run_ocr_on_file "a.pdf" "archive" "ocr" "eng+ell+tur" "_ocr" 7
        SubprocessOutcome.notFound).isSome = true ∧
    (process_folder true ["a.pdf"] (fun _ => ReadResult.fileNotFound)
        (fun _ => SubprocessOutcome.notFound) "archive" "ocr").exitCode = 0 ∧
    (process_folder true ["a.pdf"] (fun _ => ReadResult.fileNotFound)
        (fun _ => SubprocessOutcome.notFound) "archive" "ocr").reports.length
      = ((["a.pdf"] : List String).filter (fun f => endswith f ".pdf")).length :=
  C6_subprocess_failures_caught "a.pdf" "ocr" "archive" "ocr" "eng+ell+tur" "_ocr"
    "archive" [1] 7 SubprocessOutcome.notFound (by decide) ["a.pdf"]
    (fun _ => ReadResult.fileNotFound) (fun _ => SubprocessOutcome.notFound)

/-- Claim C7: `main` of the batch variant constructs a worker abstraction
(one partially applied worker per listed file, inside the print loop) but
never submits work: `run_ocr_on_file` is never invoked and no OCR subprocess
is ever spawned by `main`. -/
theorem C7_worker_never_invoked (listing : Option (List String)) :
    (ocrMain listing).workerInvocations = [] ∧
    (ocrMain listing).spawned = [] ∧
    ∀ all_files, listing = some all_files → files_to_process all_files ≠ [] →
      (ocrMain listing).workersConstructed = (files_to_process all_files).length := by
  cases listing with
  | none => exact ⟨rfl, rfl, fun _ hl => by cases hl⟩
  | some l =>
      refine ⟨?_, ?_, ?_⟩
      · unfold ocrMain
        by_cases hl : files_to_process l = [] <;> simp [hl]
      · unfold ocrMain
        by_cases hl : files_to_process l = [] <;> simp [hl]
      · intro a ha hne
        cases ha
        unfold ocrMain
        simp [hne]

/-- Witness for C7 on a directory listing with one unprocessed file. -/
theorem C7_worker_never_invoked_witness :
    (ocrMain (some ["a.pdf"])).workerInvocations = [] ∧
    (ocrMain (some ["a.pdf"])).spawned = [] ∧
    (ocrMain (some ["a.pdf"])).workersConstructed
      = (files_to_process ["a.pdf"]).length := by
  have h := C7_worker_never_invoked (some ["a.pdf"])
  exact ⟨h.1, h.2.1, h.2.2 ["a.pdf"] rfl (by decide)⟩

/-- Claim C8: the batch variant keeps exactly the files whose lowercased name
ends with `.pdf` and does not end with the output suffix `_ocr.pdf`; every
already-processed output file is excluded from the work list. -/
theorem C8_worklist_filter (all_files : List String) (f : String) :
    (f ∈ files_to_process all_files ↔
      f ∈ all_files ∧ endswith (lower f) ".pdf" = true
        ∧ endswith (lower f) "_ocr.pdf" = false) ∧
    (endswith (lower f) "_ocr.pdf" = true → f ∉ files_to_process all_files) := by
  have hs : OUTPUT_SUFFIX ++ ".pdf" = "_ocr.pdf" := rfl
  have hmem : f ∈ files_to_process all_files ↔
      f ∈ all_files ∧ endswith (lower f) ".pdf" = true
        ∧ endswith (lower f) "_ocr.pdf" = false := by
    unfold files_to_process
    rw [hs]
    simp [List.mem_filter, Bool.and_eq_true, Bool.not_eq_true']
  refine ⟨hmem, ?_⟩
  intro h hin
  rcases hmem.1 hin with ⟨-, -, hfalse⟩
  rw [h] at hfalse
  cases hfalse

/-- Witness for C8: an already-processed output file is filtered out. -/
theorem C8_worklist_filter_witness :
    (("b_ocr.pdf" : String) ∈ files_to_process ["a.pdf", "b_ocr.pdf"] ↔
      ("b_ocr.pdf" : String) ∈ (["a.pdf", "b_ocr.pdf"] : List String)
        ∧ endswith (lower "b_ocr.pdf") ".pdf" = true
        ∧ endswith (lower "b_ocr.pdf") "_ocr.pdf" = false) ∧
    ("b_ocr.pdf" : String) ∉ files_to_process ["a.pdf", "b_ocr.pdf"] := by
  have h := C8_worklist_filter ["a.pdf", "b_ocr.pdf"] "b_ocr.pdf"
  exact ⟨h.1, h.2 (by decide)⟩

/-- Claim C9: the incremental-mode command carries the language codes, the
forced-redo flag and a page restriction equal to the comma-joined needs-OCR
list, the whole-file command carries the language codes and the full-document
forced-OCR flag with no page restriction, and both end with the input path
followed by the output path. -/
theorem C9_command_contents (input_file output_folder input2 source_dir output_dir : String)
    (ps : List Nat) (o : SubprocessOutcome) (h : ps ≠ []) :
    (run_ocr_for_file input_file output_folder ps o).spawned
      = [run_ocr_for_file_command input_file output_folder ps] ∧
    run_ocr_for_file_command input_file output_folder ps
      = ["ocrmypdf", "-l", "ell+eng+tur", "--redo-ocr", "--pages",
          String.intercalate "," (ps.map toString)]
        ++ [input_file, joinPath output_folder (basename input_file)] ∧
    run_ocr_on_file_command input2 source_dir output_dir LANGUAGES OUTPUT_SUFFIX
      = ["ocrmypdf", "-l", LANGUAGES, "--force-ocr"]
        ++ [joinPath source_dir input2,
            joinPath output_dir (splitextRoot input2 ++ OUTPUT_SUFFIX ++ ".pdf")] ∧
    "--pages" ∉ run_ocr_on_file_command input2 source_dir output_dir
      LANGUAGES OUTPUT_SUFFIX := by
  refine ⟨?_, rfl, rfl, ?_⟩
  · unfold run_ocr_for_file
    rw [if_neg h]
    cases o <;> rfl
  · unfold run_ocr_on_file_command
    intro hmem
    simp only [List.mem_cons, List.not_mem_nil, or_false] at hmem
    rcases hmem with h1 | h1 | h1 | h1 | h1 | h1
    · exact absurd h1 (by decide)
    · exact absurd h1 (by decide)
    · exact absurd h1 (by decide)
    · exact absurd h1 (by decide)
    · exact joinPath_ne_pages _ _ h1.symm
    · exact joinPath_ne_pages _ _ h1.symm

/-- Witness for C9 at a concrete page list `[2]`. -/
theorem C9_command_contents_witness :
    (run_ocr_for_file "a.pdf" "o" [2] SubprocessOutcome.success).spawned
      = [run_ocr_for_file_command "a.pdf" "o" [2]] ∧
    run_ocr_for_file_command "a.pdf" "o" [2]
      = ["ocrmypdf", "-l", "ell+eng+tur", "--redo-ocr", "--pages",
          String.intercalate "," (([2] : List Nat).map toString)]
        ++ ["a.pdf", joinPath "o" (basename "a.pdf")] ∧
    run_ocr_on_file_command "b.pdf" "s" "o2" LANGUAGES OUTPUT_SUFFIX
      = ["ocrmypdf", "-l", LANGUAGES, "--force-ocr"]
        ++ [joinPath "s" "b.pdf",
            joinPath "o2" (splitextRoot "b.pdf" ++ OUTPUT_SUFFIX ++ ".pdf")] ∧
    "--pages" ∉ run_ocr_on_file_command "b.pdf" "s" "o2" LANGUAGES OUTPUT_SUFFIX :=
  C9_command_contents "a.pdf" "o" "b.pdf" "s" "o2" [2] SubprocessOutcome.success
    (by decide)

end CyprusFile
